import Mathlib

/-!
Verification development for the Product Review Analyzer repository
(React frontend + FastAPI backend).

The repository's checked-in sources contain the frontend (App component,
ReviewCard, AnalysisResult, ReviewList, api client).  The backend core
(AnalysisOrchestrator, ReviewRecord store, HistoryQueryService,
RequestGateway) is referenced by the README and the spec but its code is
not part of src/, so the backend definitions below are modelled from the
spec text; the frontend definitions are translated from the JSX sources.
-/

deriving instance DecidableEq for Except

namespace ReviewAnalyzer

/-- Modelled from the spec: the sentiment enum of the ReviewRecord data
model (spec section 3) of the missing backend (backend/app/models.py). -/
inductive Sentiment where
  | positive
  | negative
  | neutral
deriving DecidableEq, Repr

/-- Modelled from the spec: the derived analysis_status enum
(completed / partial / failed) of the missing backend.  The middle
constructor is spelled partialResult because Lean reserves the bare
keyword. -/
inductive AnalysisStatus where
  | completed
  | partialResult
  | failed
deriving DecidableEq, Repr

/-- Modelled from the spec: the two capability failure kinds of the
missing backend capability adapters (spec section 4.1): UpstreamUnavailable
and UpstreamTimeout, each carrying a message. -/
inductive CapError where
  | unavailable (msg : String)
  | timeout (msg : String)
deriving DecidableEq, Repr

/-- Modelled from the spec: a successful sentiment classification result
of the missing SentimentCapability: a label and a confidence score.
Scores are modelled as rationals. -/
structure SentimentOutput where
  label : Sentiment
  confidence : ℚ
deriving DecidableEq, Repr

/-- Modelled from the spec: the analyze request body of the missing
backend (review_text plus optional product_name). -/
structure AnalyzeInput where
  review_text : String
  product_name : Option String
deriving DecidableEq, Repr

/-- Modelled from the spec: a draft ReviewRecord as produced by the
missing AnalysisOrchestrator, before the store assigns id and
created_at. -/
structure ReviewDraft where
  review_text : String
  product_name : Option String
  sentiment : Option Sentiment
  sentiment_score : Option ℚ
  key_points : List String
  analysis_status : AnalysisStatus
  error_message : Option String
deriving DecidableEq, Repr

/-- Modelled from the spec: one-line summary of a capability failure,
used when folding failures into error_message. -/
def CapError.summary : CapError → String
  | .unavailable msg => "upstream unavailable: " ++ msg
  | .timeout msg => "upstream timeout: " ++ msg

/-- Modelled from the spec: the failure summary for the sentiment side. -/
def sentimentFailureSummary (e : CapError) : String :=
  "Sentiment analysis failed: " ++ e.summary

/-- Modelled from the spec: the failure summary for the key-point side. -/
def keyPointFailureSummary (e : CapError) : String :=
  "Key point extraction failed: " ++ e.summary

/-- Whether a capability outcome is a success. -/
def capOk {α : Type} : Except CapError α → Bool
  | .ok _ => true
  | .error _ => false

/-- Modelled from the spec: the reconciliation policy of the missing
AnalysisOrchestrator (spec section 4.3): merge the two capability
outcomes into one draft ReviewRecord. -/
def reconcile (input : AnalyzeInput) (sres : Except CapError SentimentOutput)
    (kres : Except CapError (List String)) : ReviewDraft :=
  match sres, kres with
  | .ok s, .ok kp =>
      { review_text := input.review_text
        product_name := input.product_name
        sentiment := some s.label
        sentiment_score := some s.confidence
        key_points := kp
        analysis_status := .completed
        error_message := none }
  | .ok s, .error ke =>
      { review_text := input.review_text
        product_name := input.product_name
        sentiment := some s.label
        sentiment_score := some s.confidence
        key_points := []
        analysis_status := .partialResult
        error_message := some (keyPointFailureSummary ke) }
  | .error se, .ok kp =>
      { review_text := input.review_text
        product_name := input.product_name
        sentiment := none
        sentiment_score := none
        key_points := kp
        analysis_status := .partialResult
        error_message := some (sentimentFailureSummary se) }
  | .error se, .error ke =>
      { review_text := input.review_text
        product_name := input.product_name
        sentiment := none
        sentiment_score := none
        key_points := []
        analysis_status := .failed
        error_message := some (sentimentFailureSummary se ++ "; " ++
          keyPointFailureSummary ke) }

/-- Modelled from the spec: the missing AnalysisOrchestrator entry point.
Spec section 4.3: the orchestrator always returns a draft record, never an
error; every combination of capability outcomes is recovered locally into
the reconciled draft. -/
def orchestrate (input : AnalyzeInput) (sres : Except CapError SentimentOutput)
    (kres : Except CapError (List String)) : Except CapError ReviewDraft :=
  match sres, kres with
  | .ok s, .ok kp => .ok (reconcile input (.ok s) (.ok kp))
  | .ok s, .error ke => .ok (reconcile input (.ok s) (.error ke))
  | .error se, .ok kp => .ok (reconcile input (.error se) (.ok kp))
  | .error se, .error ke => .ok (reconcile input (.error se) (.error ke))

/-- Modelled from the spec: the validation failure kinds of the missing
RequestGateway (spec sections 4.6 and 7). -/
inductive ValidationError where
  | reviewTextTooShort
  | reviewTextTooLong
  | productNameTooLong
deriving DecidableEq, Repr

/-- Modelled from the spec: the request-level error taxonomy of the
missing backend (spec section 7).  Capability errors are deliberately not
representable here: they are folded into the record instead. -/
inductive RequestError where
  | validation (e : ValidationError)
  | notFound
deriving DecidableEq, Repr

/-- Modelled from the spec: whitespace trimming applied to review_text
before validation (spec section 4.6), expressed structurally over the
character list. -/
def stripWhitespace (s : String) : String :=
  String.mk
    (((s.data.dropWhile Char.isWhitespace).reverse.dropWhile
        Char.isWhitespace).reverse)

/-- Modelled from the spec: RequestGateway input validation (spec section
4.6): review_text must have 10 to 5000 characters after trimming and
product_name, when present, at most 255 characters. -/
def validateInput (input : AnalyzeInput) : Except ValidationError Unit :=
  let t := stripWhitespace input.review_text
  if t.length < 10 then .error .reviewTextTooShort
  else if t.length > 5000 then .error .reviewTextTooLong
  else
    match input.product_name with
    | some n => if n.length > 255 then .error .productNameTooLong else .ok ()
    | none => .ok ()

/-- Modelled from the spec: a persisted ReviewRecord of the missing store
(spec section 3): a draft plus the store-assigned id and created_at. -/
structure ReviewRecord where
  id : Nat
  review_text : String
  product_name : Option String
  sentiment : Option Sentiment
  sentiment_score : Option ℚ
  key_points : List String
  analysis_status : AnalysisStatus
  error_message : Option String
  created_at : Nat
deriving DecidableEq, Repr

/-- Modelled from the spec: attach the store-assigned id and timestamp to
a draft. -/
def recordOfDraft (id : Nat) (now : Nat) (d : ReviewDraft) : ReviewRecord :=
  { id := id
    review_text := d.review_text
    product_name := d.product_name
    sentiment := d.sentiment
    sentiment_score := d.sentiment_score
    key_points := d.key_points
    analysis_status := d.analysis_status
    error_message := d.error_message
    created_at := now }

/-- Modelled from the spec: the missing ReviewRecord store (spec section
4.4).  Records are kept newest first; ids are assigned monotonically from
next_id. -/
structure Store where
  next_id : Nat
  records : List ReviewRecord
deriving DecidableEq, Repr

/-- Modelled from the spec: the store lookup/delete failure (spec section
4.4). -/
inductive StoreError where
  | notFound
deriving DecidableEq, Repr

/-- Modelled from the spec: create(draft) assigns id and created_at
atomically and returns the new id (spec section 4.4). -/
def Store.create (st : Store) (d : ReviewDraft) (now : Nat) : Store × Nat :=
  ({ next_id := st.next_id + 1,
     records := recordOfDraft st.next_id now d :: st.records }, st.next_id)

/-- Modelled from the spec: get(id) returns the record or NotFound (spec
section 4.4). -/
def Store.get (st : Store) (id : Nat) : Option ReviewRecord :=
  st.records.find? (fun r => r.id == id)

/-- Modelled from the spec: delete(id) removes the record when present and
yields NotFound otherwise, leaving the store untouched in the NotFound
case (spec section 4.4). -/
def Store.delete (st : Store) (id : Nat) : Store × Except StoreError Unit :=
  if st.records.any (fun r => r.id == id) then
    ({ st with records := st.records.filter (fun r => !(r.id == id)) }, .ok ())
  else
    (st, .error .notFound)

/-- Modelled from the spec: clamping of the page size of the missing
HistoryQueryService (spec section 4.5): default 50, values above 100 are
clamped. -/
def clampLimit (limit : Option Nat) : Nat :=
  match limit with
  | none => 50
  | some n => min n 100

/-- Modelled from the spec: list(sentiment?, offset, limit) of the missing
HistoryQueryService (spec section 4.5): exact-match sentiment filtering
(records with absent sentiment excluded), pagination, and the total
matching count. -/
def Store.list (st : Store) (sentiment : Option Sentiment) (offset : Nat)
    (limit : Option Nat) : List ReviewRecord × Nat :=
  let matching :=
    match sentiment with
    | none => st.records
    | some v => st.records.filter (fun r => r.sentiment == some v)
  ((matching.drop offset).take (clampLimit limit), matching.length)

/-- Modelled from the spec: the analyze request pipeline of the missing
backend (spec sections 4.6, 4.3, 4.4): validate, orchestrate, persist.
The capability outcomes are passed as explicit inputs of the pure
embedding.  Validation failures short-circuit: the store is returned
unchanged and the capability outcomes are never consulted. -/
def handleAnalyze (st : Store) (input : AnalyzeInput) (now : Nat)
    (sres : Except CapError SentimentOutput)
    (kres : Except CapError (List String)) :
    Store × Except RequestError ReviewRecord :=
  match validateInput input with
  | .error e => (st, .error (.validation e))
  | .ok _ =>
      let d := reconcile input sres kres
      let created := st.create d now
      (created.1, .ok (recordOfDraft created.2 now d))

/-! Frontend definitions, translated from the JSX sources under
frontend/src.  JavaScript field values that may be undefined are embedded
as Option; numbers carried by review objects are embedded as rationals. -/

/-- A review object as the frontend components receive it (the JSON body
destructured in ReviewCard.jsx and App.jsx). -/
structure JSReview where
  id : Nat
  review_text : Option String
  product_name : Option String
  sentiment : Option String
  sentiment_score : Option ℚ
  key_points : Option (List String)
  analysis_status : Option String
  error_message : Option String
  created_at : Option String
deriving DecidableEq, Repr

/-- JavaScript truthiness of a possibly-undefined string: undefined and
the empty string are falsy. -/
def truthyStr : Option String → Bool
  | none => false
  | some s => !(s == "")

/-- JavaScript truthiness of a possibly-undefined number: undefined and 0
are falsy. -/
def truthyNum : Option ℚ → Bool
  | none => false
  | some q => !(q == 0)

/-- The value of the JavaScript expression (x || 0) for a
possibly-undefined number x. -/
def jsOrZero (x : Option ℚ) : ℚ :=
  match x with
  | none => 0
  | some q => if q == 0 then 0 else q

/-- Translated from getSentimentIcon in ReviewCard.jsx: icon chosen by a
switch on sentiment, with Minus as default. -/
def getSentimentIcon (sentiment : Option String) : String :=
  match sentiment with
  | some "positive" => "ThumbsUp"
  | some "negative" => "ThumbsDown"
  | _ => "Minus"

/-- Translated from getSentimentLabel in ReviewCard.jsx: label chosen by
a switch on sentiment, with Neutral as default. -/
def getSentimentLabel (sentiment : Option String) : String :=
  match sentiment with
  | some "positive" => "Positive"
  | some "negative" => "Negative"
  | _ => "Neutral"

/-- The rendered sentiment badge of ReviewCard.jsx: icon, label, and the
optional percentage score. -/
structure SentimentBadge where
  icon : String
  label : String
  scorePercent : Option ℚ
deriving DecidableEq, Repr

/-- Translated from the sentiment section of ReviewCard.jsx: the badge is
rendered only when sentiment is truthy, and the percentage span inside it
only when sentiment_score is truthy (the JSX guard
sentiment_score && (...)). -/
def reviewCardSentimentSection (r : JSReview) : Option SentimentBadge :=
  if truthyStr r.sentiment then
    some { icon := getSentimentIcon r.sentiment
           label := getSentimentLabel r.sentiment
           scorePercent :=
             match r.sentiment_score with
             | some q => if q == 0 then none else some (q * 100)
             | none => none }
  else none

/-- The per-sentiment display configuration of AnalysisResult.jsx. -/
structure SentimentConfig where
  icon : String
  label : String
  color : String
  description : String
deriving DecidableEq, Repr

/-- Translated from getSentimentConfig in AnalysisResult.jsx: a switch on
sentiment whose default branch (neutral or undefined) yields the Neutral
configuration. -/
def getSentimentConfig (sentiment : Option String) : SentimentConfig :=
  match sentiment with
  | some "positive" =>
      { icon := "ThumbsUp"
        label := "Positive"
        color := "var(--positive)"
        description := "This review expresses a positive sentiment about the product." }
  | some "negative" =>
      { icon := "ThumbsDown"
        label := "Negative"
        color := "var(--negative)"
        description := "This review expresses a negative sentiment about the product." }
  | _ =>
      { icon := "Minus"
        label := "Neutral"
        color := "var(--neutral)"
        description := "This review expresses a neutral or mixed sentiment." }

/-- Translated from the confidence display of AnalysisResult.jsx: the
score value shown is (sentiment_score || 0) * 100 percent. -/
def confidencePercent (sentiment_score : Option ℚ) : ℚ :=
  jsOrZero sentiment_score * 100

/-- Translated from handleDeleteReview in App.jsx: on a successful delete
call the reviews state becomes
prevReviews.filter(review => review.id !== id); on a failed call only a
toast is shown and the state is untouched. -/
def handleDeleteReviewState (deleteSucceeded : Bool)
    (prevReviews : List JSReview) (id : Nat) : List JSReview :=
  if deleteSucceeded then
    prevReviews.filter (fun review => !(review.id == id))
  else
    prevReviews

/-! Concrete values used by witness theorems. -/

/-- A valid analyze request (the worked example of spec section 8). -/
def inputEx : AnalyzeInput :=
  { review_text := "Battery life is excellent but the screen cracked easily."
    product_name := some "Phone X" }

/-- An invalid analyze request: review_text trims to fewer than 10
characters. -/
def badInputEx : AnalyzeInput :=
  { review_text := "  short  ", product_name := none }

/-- A successful sentiment outcome. -/
def sentOkEx : Except CapError SentimentOutput :=
  .ok { label := .negative, confidence := 62 / 100 }

/-- A failed sentiment outcome. -/
def sentFailEx : Except CapError SentimentOutput :=
  .error (.unavailable "sentiment model not reachable")

/-- A successful key-point outcome. -/
def keyOkEx : Except CapError (List String) :=
  .ok ["Battery life praised", "Screen fragile"]

/-- A failed key-point outcome. -/
def keyFailEx : Except CapError (List String) :=
  .error (.timeout "key point extraction timed out")

/-- An empty store. -/
def storeEx : Store := { next_id := 1, records := [] }

/-- A store holding one fully analyzed record (id 1). -/
def storeOneEx : Store :=
  (storeEx.create (reconcile inputEx sentOkEx keyOkEx) 5).1

/-- Appending to a string of nonzero length never yields the empty
string. -/
theorem string_append_ne_empty (a b : String) (h : a.length ≠ 0) :
    a ++ b ≠ "" := by
  intro hab
  apply h
  have hl := congrArg String.length hab
  rw [String.length_append] at hl
  simpa using Nat.eq_zero_of_add_eq_zero_right hl

/-- C1: for every analyze request and every pair of capability outcomes,
the reconciled analysis_status is completed iff both capabilities
succeeded, partial iff exactly one succeeded, and failed iff both failed;
in the failed case the record is still persisted by the analyze
pipeline. -/
theorem c1_analysis_status_reconciliation (input : AnalyzeInput)
    (sres : Except CapError SentimentOutput)
    (kres : Except CapError (List String)) (st : Store) (now : Nat) :
    ((reconcile input sres kres).analysis_status = .completed ↔
      (capOk sres = true ∧ capOk kres = true)) ∧
    ((reconcile input sres kres).analysis_status = .partialResult ↔
      capOk sres ≠ capOk kres) ∧
    ((reconcile input sres kres).analysis_status = .failed ↔
      (capOk sres = false ∧ capOk kres = false)) ∧
    (capOk sres = false → capOk kres = false → validateInput input = .ok () →
      (handleAnalyze st input now sres kres).1.records =
        recordOfDraft st.next_id now (reconcile input sres kres) ::
          st.records) := by
  cases sres <;> cases kres <;>
    refine ⟨by simp [reconcile, capOk], by simp [reconcile, capOk],
      by simp [reconcile, capOk], ?_⟩ <;>
    intro hs hk hv <;>
    simp [capOk] at hs hk <;>
    simp [handleAnalyze, hv, Store.create]

/-- C1 witness: with both capabilities failing on a valid input, the
record is still persisted. -/
theorem c1_witness :
    (handleAnalyze storeEx inputEx 7 sentFailEx keyFailEx).1.records =
      recordOfDraft storeEx.next_id 7 (reconcile inputEx sentFailEx keyFailEx)
        :: storeEx.records :=
  (c1_analysis_status_reconciliation inputEx sentFailEx keyFailEx storeEx
    7).2.2.2 rfl rfl rfl

/-- C2: for every input and every combination of capability outcomes
(success, UpstreamUnavailable or UpstreamTimeout on each side), the
orchestrator returns a draft record and never an error. -/
theorem c2_orchestrator_never_errors (input : AnalyzeInput)
    (sres : Except CapError SentimentOutput)
    (kres : Except CapError (List String)) :
    ∃ d : ReviewDraft, orchestrate input sres kres = .ok d := by
  cases sres <;> cases kres <;> exact ⟨_, rfl⟩

/-- C3: error_message is present iff analysis_status is partial or
failed, and when both capabilities fail the draft has no sentiment, no
sentiment_score, empty key_points, and a non-empty error_message. -/
theorem c3_error_message_invariant (input : AnalyzeInput)
    (sres : Except CapError SentimentOutput)
    (kres : Except CapError (List String)) :
    ((reconcile input sres kres).error_message.isSome = true ↔
      ((reconcile input sres kres).analysis_status = .partialResult ∨
       (reconcile input sres kres).analysis_status = .failed)) ∧
    (capOk sres = false → capOk kres = false →
      (reconcile input sres kres).sentiment = none ∧
      (reconcile input sres kres).sentiment_score = none ∧
      (reconcile input sres kres).key_points = [] ∧
      ∃ m, (reconcile input sres kres).error_message = some m ∧ m ≠ "") := by
  refine ⟨?_, ?_⟩
  · cases sres <;> cases kres <;> simp [reconcile]
  · intro hs hk
    cases sres with
    | ok s => simp [capOk] at hs
    | error se =>
      cases kres with
      | ok kp => simp [capOk] at hk
      | error ke =>
        refine ⟨by simp [reconcile], by simp [reconcile], by simp [reconcile],
          sentimentFailureSummary se ++ "; " ++ keyPointFailureSummary ke,
          rfl, ?_⟩
        refine string_append_ne_empty _ _ ?_
        rw [String.length_append]
        have h2 : ("; " : String).length = 2 := rfl
        omega

/-- C3 witness: the both-failed invariant at a concrete input. -/
theorem c3_witness :
    (reconcile inputEx sentFailEx keyFailEx).sentiment = none ∧
    (reconcile inputEx sentFailEx keyFailEx).sentiment_score = none ∧
    (reconcile inputEx sentFailEx keyFailEx).key_points = [] ∧
    ∃ m, (reconcile inputEx sentFailEx keyFailEx).error_message = some m ∧
      m ≠ "" :=
  (c3_error_message_invariant inputEx sentFailEx keyFailEx).2 rfl rfl

/-- The gateway accepts an input exactly when the trimmed review text has
10 to 5000 characters and the optional product name at most 255. -/
theorem validateInput_ok_iff (input : AnalyzeInput) :
    validateInput input = .ok () ↔
      (10 ≤ (stripWhitespace input.review_text).length ∧
       (stripWhitespace input.review_text).length ≤ 5000 ∧
       ∀ n, input.product_name = some n → n.length ≤ 255) := by
  unfold validateInput
  cases hpn : input.product_name with
  | none =>
      simp only [hpn]
      split_ifs with h1 h2 <;> simp <;> omega
  | some n0 =>
      simp only [hpn]
      split_ifs with h1 h2 h3 <;> simp <;> omega

/-- C4: for every request, the analyze pipeline succeeds iff the trimmed
review_text has between 10 and 5000 characters and the product name, when
present, at most 255; a validation failure yields a client
(validation) error, leaves the store unchanged, and is independent of the
capability outcomes (they are never consulted). -/
theorem c4_gateway_validation (st : Store) (input : AnalyzeInput) (now : Nat)
    (s s' : Except CapError SentimentOutput)
    (k k' : Except CapError (List String)) :
    ((∃ r, (handleAnalyze st input now s k).2 = .ok r) ↔
      (10 ≤ (stripWhitespace input.review_text).length ∧
       (stripWhitespace input.review_text).length ≤ 5000 ∧
       ∀ n, input.product_name = some n → n.length ≤ 255)) ∧
    (validateInput input ≠ .ok () →
      (∃ e, handleAnalyze st input now s k = (st, .error (.validation e))) ∧
      handleAnalyze st input now s k = handleAnalyze st input now s' k') := by
  constructor
  · constructor
    · rintro ⟨r, hr⟩
      rcases hve : validateInput input with e | u
      · simp [handleAnalyze, hve] at hr
      · cases u
        exact (validateInput_ok_iff input).mp hve
    · intro hb
      have hv := (validateInput_ok_iff input).mpr hb
      refine ⟨recordOfDraft (st.create (reconcile input s k) now).2 now
        (reconcile input s k), ?_⟩
      simp [handleAnalyze, hv]
  · intro hv
    rcases hve : validateInput input with e | u
    · exact ⟨⟨e, by simp [handleAnalyze, hve]⟩, by simp [handleAnalyze, hve]⟩
    · cases u
      exact absurd hve hv

/-- C4 witness: a too-short review is rejected as a validation error, the
store is untouched, and the outcome does not depend on the capability
results. -/
theorem c4_witness :
    (∃ e, handleAnalyze storeEx badInputEx 0 sentOkEx keyOkEx =
      (storeEx, .error (.validation e))) ∧
    handleAnalyze storeEx badInputEx 0 sentOkEx keyOkEx =
      handleAnalyze storeEx badInputEx 0 sentFailEx keyFailEx :=
  (c4_gateway_validation storeEx badInputEx 0 sentOkEx sentFailEx keyOkEx
    keyFailEx).2 (by decide)

/-- C5: every record returned by a sentiment-filtered list query has
exactly the requested sentiment, and no record with absent sentiment
appears in the result. -/
theorem c5_sentiment_filter_exact (st : Store) (v : Sentiment)
    (offset : Nat) (limit : Option Nat) :
    ((st.list (some v) offset limit).1.all
      (fun r => r.sentiment == some v && r.sentiment.isSome)) = true := by
  rw [List.all_eq_true]
  intro r hr
  simp only [Store.list] at hr
  have h1 : r ∈ st.records.filter (fun rec => rec.sentiment == some v) :=
    List.drop_subset _ _ (List.take_subset _ _ hr)
  have h2 := (List.mem_filter.mp h1).2
  simp only [beq_iff_eq] at h2
  simp [h2]

/-- C6: a record created from a draft is retrievable by its returned id
with exactly the stored field values (the draft's fields plus the
assigned id and timestamp); get is a pure read, so repeated gets return
the same record. -/
theorem c6_create_get_roundtrip (st : Store) (d : ReviewDraft) (now : Nat) :
    (st.create d now).1.get (st.create d now).2 =
      some (recordOfDraft (st.create d now).2 now d) := by
  simp [Store.create, Store.get, List.find?, recordOfDraft]

/-- C7: deleting a present id succeeds and a second delete of the same id
yields NotFound; deleting an absent id yields NotFound and leaves the
store unchanged. -/
theorem c7_delete_semantics (st : Store) (id : Nat) :
    (st.records.any (fun r => r.id == id) = true →
      (st.delete id).2 = .ok () ∧
      ((st.delete id).1.delete id).2 = .error .notFound) ∧
    (st.records.any (fun r => r.id == id) = false →
      (st.delete id).2 = .error .notFound ∧ (st.delete id).1 = st) := by
  constructor
  · intro h
    have hgone :
        ((st.records.filter (fun r => !(r.id == id))).any
          (fun r => r.id == id)) = false := by
      rw [Bool.eq_false_iff]
      intro hany
      rcases List.any_eq_true.mp hany with ⟨x, hx, hxid⟩
      have := (List.mem_filter.mp hx).2
      rw [hxid] at this
      simp at this
    refine ⟨by simp [Store.delete, h], ?_⟩
    simp [Store.delete, h, hgone]
  · intro h
    simp [Store.delete, h]

/-- C7 witness: concrete double delete on a one-record store and delete
on an empty store. -/
theorem c7_witness :
    ((storeOneEx.delete 1).2 = .ok () ∧
      ((storeOneEx.delete 1).1.delete 1).2 = .error .notFound) ∧
    ((storeEx.delete 1).2 = .error .notFound ∧
      (storeEx.delete 1).1 = storeEx) :=
  ⟨(c7_delete_semantics storeOneEx 1).1 (by decide),
   (c7_delete_semantics storeEx 1).2 (by decide)⟩

/-- A review object with a truthy sentiment but a sentiment_score of
exactly 0, used as the C8 witness input. -/
def reviewZeroScoreEx : JSReview :=
  { id := 3
    review_text := some "Okay product overall, nothing special about it."
    product_name := none
    sentiment := some "neutral"
    sentiment_score := some 0
    key_points := some []
    analysis_status := some "completed"
    error_message := none
    created_at := some "2024-12-08T17:00:00Z" }

/-- C8: for every review with a truthy sentiment, ReviewCard renders the
sentiment badge, and the percentage span inside it is present iff
sentiment_score is truthy; in particular a score of exactly 0 renders the
badge without any percentage. -/
theorem c8_reviewcard_score_truthiness (r : JSReview)
    (h : truthyStr r.sentiment = true) :
    ∃ b, reviewCardSentimentSection r = some b ∧
      b.scorePercent.isSome = truthyNum r.sentiment_score ∧
      (r.sentiment_score = some 0 → b.scorePercent = none) := by
  refine ⟨{ icon := getSentimentIcon r.sentiment
            label := getSentimentLabel r.sentiment
            scorePercent :=
              match r.sentiment_score with
              | some q => if q == 0 then none else some (q * 100)
              | none => none },
    by simp [reviewCardSentimentSection, h], ?_, ?_⟩
  · cases hs : r.sentiment_score with
    | none => simp [truthyNum]
    | some q =>
        by_cases hq : q = 0 <;> simp [truthyNum, hq]
  · intro h0
    rw [h0]
    simp

/-- C8 witness: a review whose sentiment_score is exactly 0 gets a badge
with no percentage. -/
theorem c8_witness :
    ∃ b, reviewCardSentimentSection reviewZeroScoreEx = some b ∧
      b.scorePercent.isSome = truthyNum reviewZeroScoreEx.sentiment_score ∧
      (reviewZeroScoreEx.sentiment_score = some 0 → b.scorePercent = none) :=
  c8_reviewcard_score_truthiness reviewZeroScoreEx (by decide)

/-- C9: whenever sentiment is absent or differs from positive and
negative, AnalysisResult uses the Neutral label and description, and the
displayed confidence is (sentiment_score || 0) * 100 percent, hence 0
when the score is absent. -/
theorem c9_analysis_result_neutral_default (s : Option String)
    (score : Option ℚ) (hp : s ≠ some "positive") (hn : s ≠ some "negative") :
    (getSentimentConfig s).label = "Neutral" ∧
    (getSentimentConfig s).description =
      "This review expresses a neutral or mixed sentiment." ∧
    confidencePercent score = score.getD 0 * 100 ∧
    (score = none → confidencePercent score = 0) := by
  refine ⟨?_, ?_, ?_, ?_⟩
  · unfold getSentimentConfig
    split
    · simp_all
    · simp_all
    · rfl
  · unfold getSentimentConfig
    split
    · simp_all
    · simp_all
    · rfl
  · cases score with
    | none => simp [confidencePercent, jsOrZero]
    | some q =>
        by_cases hq : q = 0 <;> simp [confidencePercent, jsOrZero, hq]
  · intro h0
    rw [h0]
    simp [confidencePercent, jsOrZero]

/-- C9 witness: a partial result with failed sentiment capability
(sentiment and score absent) shows the Neutral configuration and 0%
confidence. -/
theorem c9_witness :
    (getSentimentConfig none).label = "Neutral" ∧
    (getSentimentConfig none).description =
      "This review expresses a neutral or mixed sentiment." ∧
    confidencePercent none = (none : Option ℚ).getD 0 * 100 ∧
    ((none : Option ℚ) = none → confidencePercent none = 0) :=
  c9_analysis_result_neutral_default none none (by simp) (by simp)

/-- C10: after a successful delete of id in the App component, the
reviews state keeps exactly the entries whose id differs from the deleted
id, with multiplicity and relative order preserved (a sublist of the
previous state); after a failed delete the state is unchanged. -/
theorem c10_delete_updates_reviews (l : List JSReview) (id : Nat) :
    (∀ r : JSReview, (handleDeleteReviewState true l id).count r =
      if r.id = id then 0 else l.count r) ∧
    (handleDeleteReviewState true l id).Sublist l ∧
    handleDeleteReviewState false l id = l := by
  refine ⟨?_, ?_, rfl⟩
  · intro r
    by_cases hid : r.id = id
    · rw [if_pos hid]
      rw [List.count_eq_zero]
      intro hmem
      have hkeep := (List.mem_filter.mp hmem).2
      rw [hid] at hkeep
      simp at hkeep
    · rw [if_neg hid]
      refine List.count_filter ?_
      simp [hid]
  · exact List.filter_sublist l

end ReviewAnalyzer
